import Mathlib

/-!
Shallow embedding of `torchgeo/datasets/zuericrop.py` (class `ZueriCrop`).

The module is a dataset accessor: it validates a band subset, verifies or
downloads two archive files, and per index converts stored arrays into a
sample (image stack, per-instance binary masks, bounding boxes, labels).

Modelling conventions:
* Python exceptions become an `Except PyError` result; `PyError` carries the
  exception class (and message where the code formats one).
* Tensors subject only to axis permutation and channel selection (`data`)
  are modelled as `Tensor4`: explicit dimensions plus an index function.
* The target arrays (`gt`, `gt_instance`) are modelled as nested lists
  after the channel-first permute performed at zuericrop.py lines 168-169:
  the class array `gt` as a Kc×H×W list `mask_tensor`, and the instance
  array `gt_instance` as its single H×W channel (Ki = 1; the broadcast
  `instance_tensor == instance_ids[:, None, None]` at line 176 requires a
  singleton channel dimension).
* `torch.unique` returns the sorted distinct values of the flattened
  input; modelled as `insertionSort` of `dedup`.
* Boolean-mask indexing `mask_tensor[mask[None, :, :]]` (line 181) yields
  the values at true positions of the mask broadcast over all Kc channels,
  in (channel, row, column) row-major order; modelled by `masked_values`.
* `torch.where(mask)` yields the (row, column) coordinates of true pixels;
  modelled by `true_positions`; `torch.min`/`torch.max` over the resulting
  coordinate vectors become `List.min?`/`List.max?` (the source never
  applies them to an empty mask: every derived instance id occurs).
* dtype casts (`.to(torch.uint8)`, `.to(torch.float)`, `.to(torch.long)`)
  are value-preserving on the values arising here (booleans 0/1 and pixel
  coordinates below 2^24); masks are cast to `Nat` 0/1, boxes keep their
  `Nat` coordinates, labels keep their `Int` values.
-/

namespace ZueriCrop

/-- Python exception classes raised (directly or via helpers) by the
`ZueriCrop` code, with the message where the code formats one. -/
inductive PyError where
  | assertionError (msg : String)
  | typeError (msg : String)
  | valueError (msg : String)
  | datasetNotFoundError
  | rgbBandsMissingError
  | dependencyNotFoundError
  | downloadError
deriving DecidableEq, Repr

/-- The Python class name of an exception value. -/
def pyClass : PyError → String
  | .assertionError _ => "AssertionError"
  | .typeError _ => "TypeError"
  | .valueError _ => "ValueError"
  | .datasetNotFoundError => "DatasetNotFoundError"
  | .rgbBandsMissingError => "RGBBandsMissingError"
  | .dependencyNotFoundError => "DependencyNotFoundError"
  | .downloadError => "DownloadError"

/-- The exception class with which a computation failed, if it failed. -/
def errClass {α : Type} : Except PyError α → String
  | .error e => pyClass e
  | .ok _ => "no error"

/-- zuericrop.py line 59: the fixed on-disk band order. -/
def band_names : List String :=
  ["NIR", "B03", "B02", "B04", "B05", "B06", "B07", "B11", "B12"]

/-- zuericrop.py line 60. -/
def rgb_bands : List String := ["B04", "B03", "B02"]

/-- zuericrop.py line 57: the two required files. -/
def filenames : List String := ["ZueriCrop.hdf5", "labels.csv"]

/-- The `bands` argument of `__init__`: either an actual sequence of band
names or any non-sequence Python value. -/
inductive BandsArg where
  | seq (bands : List String)
  | notSeq
deriving DecidableEq, Repr

/-- The band list carried by a `BandsArg` (only reached after validation,
which rejects `notSeq`). -/
def bandsList : BandsArg → List String
  | .seq bands => bands
  | .notSeq => []

/-- Message of the `ValueError` at zuericrop.py line 246. -/
def invalid_band_msg (band : String) : String :=
  "\x27" ++ band ++ "\x27 is an invalid band name."

/-- zuericrop.py lines 231-246, `_validate_bands`: assert the argument is a
sequence (an `assert` raises `AssertionError`), then raise `ValueError` at
the first band name not among `band_names`. -/
def validate_bands : BandsArg → Except PyError Unit
  | .notSeq => .error (.assertionError "\x27bands\x27 must be a sequence")
  | .seq bands =>
    match bands.find? (fun b => !(band_names.contains b)) with
    | some b => .error (.valueError (invalid_band_msg b))
    | none => .ok ()

/-- zuericrop.py lines 87-89: `[self.band_names.index(b) for b in bands]`. -/
def band_indices (bands : List String) : List Nat :=
  bands.map (fun b => band_names.indexOf b)

/-- zuericrop.py line 84 / 125 / 139: `lazy_import` raises a
dependency-not-found error when `h5py` is unavailable. -/
def lazy_import_h5py (available : Bool) : Except PyError Unit :=
  if available then .ok () else .error .dependencyNotFoundError

/-- zuericrop.py lines 219-229, `_download`: fetch each missing file via
`download_url`, whose failures propagate; the network outcome is a
parameter of the model. -/
def download_files (downloadOk : Bool) : Except PyError Unit :=
  if downloadOk then .ok () else .error .downloadError

/-- zuericrop.py lines 201-217, `_verify`: return if both required files
exist; otherwise raise `DatasetNotFoundError` when downloading is disabled,
else download. `fileExists` models `os.path.exists` on the joined path. -/
def verify (fileExists : String → Bool) (download downloadOk : Bool) :
    Except PyError Unit :=
  if filenames.all fileExists then .ok ()
  else if !download then .error .datasetNotFoundError
  else download_files downloadOk

/-- zuericrop.py lines 62-98, `__init__`: import the archive library,
validate the bands, precompute the band index list, verify the files.
Returns the precomputed band index list. -/
def init (h5pyAvailable : Bool) (bands : BandsArg)
    (fileExists : String → Bool) (download downloadOk : Bool) :
    Except PyError (List Nat) :=
  match lazy_import_h5py h5pyAvailable with
  | .error e => .error e
  | .ok _ =>
    match validate_bands bands with
    | .error e => .error e
    | .ok _ =>
      match verify fileExists download downloadOk with
      | .error e => .error e
      | .ok _ => .ok (band_indices (bandsList bands))

/-- A 4-dimensional tensor: explicit dimensions and an index function
(out-of-range indices never influence the modelled operations). -/
structure Tensor4 where
  d0 : Nat
  d1 : Nat
  d2 : Nat
  d3 : Nat
  val : Nat → Nat → Nat → Nat → Int

/-- zuericrop.py line 145: `tensor.permute((0, 3, 1, 2))`, taking
T×H×W×C to T×C×H×W. -/
def permute_0312 (t : Tensor4) : Tensor4 :=
  { d0 := t.d0, d1 := t.d3, d2 := t.d1, d3 := t.d2,
    val := fun a b c d => t.val a c d b }

/-- zuericrop.py line 146: `torch.index_select(tensor, dim=1, index)`. -/
def index_select1 (t : Tensor4) (index : List Nat) : Tensor4 :=
  { d0 := t.d0, d1 := index.length, d2 := t.d2, d3 := t.d3,
    val := fun a b c d => t.val a (index.getD b 0) c d }

/-- zuericrop.py lines 130-147, `_load_image`: slice `data[index]`
(a T×H×W×C array, the `data` parameter here), permute to T×C×H×W and
select the configured band channels. -/
def load_image (data : Tensor4) (band_idx : List Nat) : Tensor4 :=
  index_select1 (permute_0312 data) band_idx

/-- Model of `torch.unique` on the flattened values: sorted distinct values. -/
def tensor_unique (xs : List Int) : List Int :=
  List.insertionSort (· ≤ ·) xs.dedup

/-- zuericrop.py lines 172-174: `torch.unique(instance_tensor)` with the
background id 0 removed. `inst` is the H×W instance channel. -/
def instance_ids (inst : List (List Int)) : List Int :=
  (tensor_unique inst.flatten).filter (fun v => v != 0)

/-- One row of zuericrop.py line 176: the boolean plane
`instance_tensor == id`. -/
def eq_mask (inst : List (List Int)) (id : Int) : List (List Bool) :=
  inst.map (fun row => row.map (fun v => v == id))

/-- zuericrop.py lines 175-176: the stacked I×H×W boolean instance masks,
one plane per distinct nonzero instance id. -/
def instance_masks (inst : List (List Int)) : List (List (List Bool)) :=
  (instance_ids inst).map (eq_mask inst)

/-- zuericrop.py line 181: `mask_tensor[mask[None, :, :]]` — the class
values at every (channel, row, column) position where the broadcast mask is
true, in row-major order. -/
def masked_values (mask_tensor : List (List (List Int)))
    (m : List (List Bool)) : List Int :=
  mask_tensor.flatMap (fun chan =>
    (chan.zip m).flatMap (fun rows =>
      (rows.1.zip rows.2).filterMap (fun vc =>
        if vc.2 then some vc.1 else none)))

/-- zuericrop.py lines 181-182: `torch.unique(label)[0]` — the first entry
of the sorted distinct selected values (their minimum; the source never
reaches an empty selection, where the model defaults to `0`). -/
def instance_label (mask_tensor : List (List (List Int)))
    (m : List (List Bool)) : Int :=
  (tensor_unique (masked_values mask_tensor m)).headD 0

/-- The pixel of a boolean mask at (row, column), false out of range. -/
def maskVal (m : List (List Bool)) (r c : Nat) : Bool :=
  (m.getD r []).getD c false

/-- zuericrop.py line 188: `torch.where(mask)` — the (row, column)
coordinates of the true pixels, in row-major order. -/
def true_positions (m : List (List Bool)) : List (Nat × Nat) :=
  (List.range m.length).flatMap (fun r =>
    (List.range ((m.getD r []).length)).filterMap (fun c =>
      if maskVal m r c then some (r, c) else none))

/-- zuericrop.py lines 188-193: the `[xmin, ymin, xmax, ymax]` row built
from `torch.min`/`torch.max` over the columns (`pos[1]`) and rows
(`pos[0]`) of the true pixels. -/
def bounding_box (m : List (List Bool)) : List Nat :=
  let pos := true_positions m
  [((pos.map Prod.snd).min?).getD 0,
   ((pos.map Prod.fst).min?).getD 0,
   ((pos.map Prod.snd).max?).getD 0,
   ((pos.map Prod.fst).max?).getD 0]

/-- Result of `_load_target`: masks cast to uint8 0/1, float boxes
(coordinates kept exact), long labels. -/
structure Target where
  masks : List (List (List Nat))
  boxes : List (List Nat)
  labels : List Int
deriving DecidableEq, Repr

/-- zuericrop.py lines 149-199, `_load_target` (from line 171, after the
channel-first permutes): derive the binary instance masks, then per mask a
label and a bounding box, and cast dtypes. -/
def load_target (mask_tensor : List (List (List Int)))
    (inst : List (List Int)) : Target :=
  let masks := instance_masks inst
  { masks := masks.map (fun m => m.map (fun row =>
      row.map (fun b => if b then 1 else 0)))
  , boxes := masks.map bounding_box
  , labels := masks.map (instance_label mask_tensor) }

/-- The sample mapping built by `__getitem__` (zuericrop.py line 112),
before any transform. -/
structure Sample where
  image : Tensor4
  mask : List (List (List Nat))
  bbox_xyxy : List (List Nat)
  label : List Int

/-- zuericrop.py lines 100-117, `__getitem__` with no transform: load the
image and the target and assemble the sample mapping. -/
def getitem (data : Tensor4) (band_idx : List Nat)
    (mask_tensor : List (List (List Int))) (inst : List (List Int)) :
    Sample :=
  let t := load_target mask_tensor inst
  { image := load_image data band_idx
  , mask := t.masks
  , bbox_xyxy := t.boxes
  , label := t.labels }

/-- zuericrop.py lines 271-276: resolve the position of each RGB band in
the selected subset, raising `RGBBandsMissingError` at the first absent
one. -/
def rgb_indices_of (bands : List String) : List String → Except PyError (List Nat)
  | [] => .ok []
  | b :: rest =>
    if bands.contains b then
      match rgb_indices_of bands rest with
      | .ok idx => .ok (bands.indexOf b :: idx)
      | .error e => .error e
    else .error .rgbBandsMissingError

/-- zuericrop.py lines 248-311, `plot`: the RGB-check and panel-count
control flow. Returns the resolved RGB indices and `ncols`, the number of
panels of the produced figure (2, plus 1 when the sample has a
`prediction` key). -/
def plot (bands : List String) (hasPrediction : Bool) :
    Except PyError (List Nat × Nat) :=
  match rgb_indices_of bands rgb_bands with
  | .error e => .error e
  | .ok idx => .ok (idx, 2 + (if hasPrediction then 1 else 0))

/-! Helper lemmas about the embedded operations. -/

/-- Membership in `tensor_unique` is membership in the input. -/
lemma mem_tensor_unique {a : Int} {xs : List Int} :
    a ∈ tensor_unique xs ↔ a ∈ xs := by
  unfold tensor_unique
  rw [(List.perm_insertionSort _ _).mem_iff, List.mem_dedup]

/-- The list `tensor_unique xs` is sorted by `≤`. -/
lemma tensor_unique_sorted (xs : List Int) :
    List.Sorted (· ≤ ·) (tensor_unique xs) :=
  List.sorted_insertionSort _ _

/-- The list `tensor_unique xs` has no duplicates. -/
lemma tensor_unique_nodup (xs : List Int) : (tensor_unique xs).Nodup :=
  (List.perm_insertionSort _ _).nodup_iff.mpr (List.nodup_dedup xs)

/-- On a nonempty input, the head of `tensor_unique` is a member of the
input and a lower bound for it: `torch.unique(x)[0]` is the minimum. -/
lemma tensor_unique_headD_min {xs : List Int} (h : xs ≠ []) :
    (tensor_unique xs).headD 0 ∈ xs ∧
      ∀ v ∈ xs, (tensor_unique xs).headD 0 ≤ v := by
  obtain ⟨a, ha⟩ := List.exists_mem_of_ne_nil xs h
  have hmem : a ∈ tensor_unique xs := mem_tensor_unique.mpr ha
  have hsorted := tensor_unique_sorted xs
  cases hu : tensor_unique xs with
  | nil => rw [hu] at hmem; cases hmem
  | cons b t =>
    rw [hu] at hsorted
    rw [List.sorted_cons] at hsorted
    have hb : b ∈ tensor_unique xs := by
      rw [hu]; exact List.mem_cons_self b t
    constructor
    · exact mem_tensor_unique.mp hb
    · intro v hv
      have hvu : v ∈ tensor_unique xs := mem_tensor_unique.mpr hv
      rw [hu] at hvu
      rcases List.mem_cons.mp hvu with hvb | hvt
      · exact le_of_eq hvb.symm
      · exact hsorted.1 v hvt

/-- Reading `getD` through a `map`, when the mapping respects the defaults. -/
lemma getD_map_eq {α β : Type} {f : α → β} {l : List α} {n : Nat}
    {da : α} {db : β} (hd : f da = db) :
    (l.map f).getD n db = f (l.getD n da) := by
  rw [List.getD_eq_getElem?_getD, List.getD_eq_getElem?_getD,
    List.getElem?_map]
  cases l[n]? with
  | none => simp [hd]
  | some a => simp

/-- The derived instance-id list is strictly ascending. -/
lemma instance_ids_sorted (inst : List (List Int)) :
    List.Sorted (· < ·) (instance_ids inst) := by
  have hle : List.Sorted (· ≤ ·) (instance_ids inst) :=
    List.Pairwise.filter _ (tensor_unique_sorted inst.flatten)
  have hnd : (instance_ids inst).Nodup :=
    List.Nodup.filter _ (tensor_unique_nodup inst.flatten)
  exact hle.lt_of_le hnd

/-- The derived instance ids are exactly the nonzero values present in
the instance array. -/
lemma mem_instance_ids {v : Int} {inst : List (List Int)} :
    v ∈ instance_ids inst ↔ v ≠ 0 ∧ v ∈ inst.flatten := by
  unfold instance_ids
  rw [List.mem_filter, mem_tensor_unique, bne_iff_ne]
  exact ⟨fun h => ⟨h.2, h.1⟩, fun h => ⟨h.2, h.1⟩⟩

/-- Every in-range entry of the instance-id list is nonzero. -/
lemma instance_ids_getD_ne_zero {inst : List (List Int)} {k : Nat}
    (h : k < (instance_ids inst).length) :
    (instance_ids inst).getD k 0 ≠ 0 := by
  rw [List.getD_eq_getElem _ _ h]
  exact (mem_instance_ids.mp (List.getElem_mem h)).1

/-- Pointwise description of one boolean instance plane, for a nonzero
id (out-of-range pixels read as the background value 0). -/
lemma eq_mask_getD {inst : List (List Int)} {id : Int} (hid : id ≠ 0)
    (r c : Nat) :
    ((eq_mask inst id).getD r []).getD c false
      = ((inst.getD r []).getD c 0 == id) := by
  have hzero : ((0 : Int) == id) = false :=
    beq_eq_false_iff_ne.mpr (fun h => hid h.symm)
  unfold eq_mask
  simp only [List.getD_eq_getElem?_getD, List.getElem?_map]
  cases inst[r]? with
  | none => simp [hzero]
  | some row =>
    simp only [Option.map_some', Option.getD_some, List.getElem?_map]
    cases row[c]? with
    | none => simp [hzero]
    | some v => simp

/-- The k-th instance mask is the equality plane of the k-th id. -/
lemma instance_masks_getD {inst : List (List Int)} {k : Nat}
    (h : k < (instance_ids inst).length) :
    (instance_masks inst).getD k [] = eq_mask inst ((instance_ids inst).getD k 0) := by
  unfold instance_masks
  have hk : k < ((instance_ids inst).map (eq_mask inst)).length := by
    rw [List.length_map]; exact h
  rw [List.getD_eq_getElem _ _ hk, List.getElem_map, List.getD_eq_getElem _ _ h]

/-- A true mask pixel lies inside the row range. -/
lemma maskVal_row_lt {m : List (List Bool)} {r c : Nat}
    (h : maskVal m r c = true) : r < m.length := by
  by_contra hge
  have : m.getD r [] = [] := by
    rw [List.getD_eq_getElem?_getD, List.getElem?_eq_none (Nat.le_of_not_lt hge)]
    rfl
  rw [maskVal, this] at h
  simp [List.getD] at h

/-- A true mask pixel lies inside the column range of its row. -/
lemma maskVal_col_lt {m : List (List Bool)} {r c : Nat}
    (h : maskVal m r c = true) : c < (m.getD r []).length := by
  by_contra hge
  rw [maskVal, List.getD_eq_getElem?_getD,
    List.getElem?_eq_none (Nat.le_of_not_lt hge)] at h
  simp at h

/-- The list `true_positions m` contains exactly the true pixels of `m`. -/
lemma mem_true_positions {m : List (List Bool)} {r c : Nat} :
    (r, c) ∈ true_positions m ↔ maskVal m r c = true := by
  unfold true_positions
  rw [List.mem_flatMap]
  constructor
  · rintro ⟨a, -, hmem⟩
    rcases List.mem_filterMap.mp hmem with ⟨b, -, hb⟩
    by_cases hv : maskVal m a b = true
    · rw [if_pos hv] at hb
      injection hb with hpair
      injection hpair with h1 h2
      rw [← h1, ← h2]
      exact hv
    · rw [if_neg hv] at hb; cases hb
  · intro h
    refine ⟨r, List.mem_range.mpr (maskVal_row_lt h), ?_⟩
    exact List.mem_filterMap.mpr
      ⟨c, List.mem_range.mpr (maskVal_col_lt h), by rw [if_pos h]⟩

/-- On naturals, `List.min?` returns the least member. -/
lemma nat_min?_spec {xs : List Nat} {a : Nat} :
    xs.min? = some a ↔ a ∈ xs ∧ ∀ b ∈ xs, a ≤ b :=
  List.min?_eq_some_iff (fun x => le_refl x) min_choice
    (fun _ _ _ => le_min_iff)

/-- On naturals, `List.max?` returns the greatest member. -/
lemma nat_max?_spec {xs : List Nat} {a : Nat} :
    xs.max? = some a ↔ a ∈ xs ∧ ∀ b ∈ xs, b ≤ a :=
  List.max?_eq_some_iff (fun x => le_refl x) max_choice
    (fun _ _ _ => max_le_iff)

/-- The minimum of a nonempty list is defined. -/
lemma min?_isSome_of_ne_nil {xs : List Nat} (h : xs ≠ []) :
    ∃ a, xs.min? = some a := by
  cases xs with
  | nil => exact absurd rfl h
  | cons x t => exact ⟨t.foldl min x, rfl⟩

/-- The maximum of a nonempty list is defined. -/
lemma max?_isSome_of_ne_nil {xs : List Nat} (h : xs ≠ []) :
    ∃ a, xs.max? = some a := by
  cases xs with
  | nil => exact absurd rfl h
  | cons x t => exact ⟨t.foldl max x, rfl⟩

/-- The labels of `load_target`, per in-range index. -/
lemma load_target_labels_getD {mask_tensor : List (List (List Int))}
    {inst : List (List Int)} {k : Nat}
    (h : k < (instance_masks inst).length) :
    (load_target mask_tensor inst).labels.getD k 0
      = instance_label mask_tensor ((instance_masks inst).getD k []) := by
  show ((instance_masks inst).map (instance_label mask_tensor)).getD k 0
    = instance_label mask_tensor ((instance_masks inst).getD k [])
  have hk : k < ((instance_masks inst).map (instance_label mask_tensor)).length := by
    rw [List.length_map]; exact h
  rw [List.getD_eq_getElem _ _ hk, List.getElem_map, List.getD_eq_getElem _ _ h]

/-- The boxes of `load_target`, per in-range index. -/
lemma load_target_boxes_getD {mask_tensor : List (List (List Int))}
    {inst : List (List Int)} {k : Nat}
    (h : k < (instance_masks inst).length) :
    (load_target mask_tensor inst).boxes.getD k []
      = bounding_box ((instance_masks inst).getD k []) := by
  show ((instance_masks inst).map bounding_box).getD k []
    = bounding_box ((instance_masks inst).getD k [])
  have hk : k < ((instance_masks inst).map bounding_box).length := by
    rw [List.length_map]; exact h
  rw [List.getD_eq_getElem _ _ hk, List.getElem_map, List.getD_eq_getElem _ _ h]

/-! The claims. -/

/-- C1: for every index, `get` derives the instance masks by enumerating
the distinct nonzero values of the instance array (0 contributes no mask)
and producing one boolean plane per distinct id, true exactly where the
instance array equals that id, stacked in ascending id order; in
particular, for an instance array with values {0,0,2,2,5} over a 1×5
region, `get` yields exactly 2 instance masks (ids 2 and 5). -/
theorem C1_instance_mask_derivation :
    (∀ inst : List (List Int),
      (instance_masks inst).length = (instance_ids inst).length ∧
      List.Sorted (· < ·) (instance_ids inst) ∧
      (∀ v : Int, v ∈ instance_ids inst ↔ v ≠ 0 ∧ v ∈ inst.flatten) ∧
      (∀ k r c : Nat, k < (instance_ids inst).length →
        (((instance_masks inst).getD k []).getD r []).getD c false
          = ((inst.getD r []).getD c 0 == (instance_ids inst).getD k 0))) ∧
    instance_ids [[0, 0, 2, 2, 5]] = [2, 5] ∧
    (instance_masks [[0, 0, 2, 2, 5]]).length = 2 := by
  refine ⟨fun inst => ⟨List.length_map _ _, instance_ids_sorted inst,
    fun v => mem_instance_ids, fun k r c hk => ?_⟩, by decide, by decide⟩
  rw [instance_masks_getD hk]
  exact eq_mask_getD (instance_ids_getD_ne_zero hk) r c

/-- Witness for C1 at the concrete sample of the spec: id 2 is the first
instance and its mask is true at column 2. -/
theorem C1_instance_mask_derivation_witness :
    0 < (instance_ids [[0, 0, 2, 2, 5]]).length ∧
    (((instance_masks [[0, 0, 2, 2, 5]]).getD 0 []).getD 0 []).getD 2 false
      = ((([[0, 0, 2, 2, 5]] : List (List Int)).getD 0 []).getD 2 0
          == (instance_ids [[0, 0, 2, 2, 5]]).getD 0 0) :=
  ⟨by decide,
    (C1_instance_mask_derivation.1 [[0, 0, 2, 2, 5]]).2.2.2 0 0 2 (by decide)⟩

/-- C2: for every instance mask with at least one true pixel (so that the
boolean selection from the class array is nonempty), the label assigned by
`get` is the smallest of the class-array values selected where the mask,
broadcast across the class channels, is true: it is a selected value and a
lower bound of the selected values. -/
theorem C2_label_is_min_of_selected_classes :
    ∀ (mask_tensor : List (List (List Int))) (inst : List (List Int))
      (k : Nat),
      k < (instance_masks inst).length →
      masked_values mask_tensor ((instance_masks inst).getD k []) ≠ [] →
      (load_target mask_tensor inst).labels.getD k 0
          ∈ masked_values mask_tensor ((instance_masks inst).getD k []) ∧
      ∀ v ∈ masked_values mask_tensor ((instance_masks inst).getD k []),
        (load_target mask_tensor inst).labels.getD k 0 ≤ v := by
  intro mask_tensor inst k hk hne
  rw [load_target_labels_getD hk]
  exact tensor_unique_headD_min hne

/-- Witness for C2: on the concrete sample of the spec, with class values
7,3,9,3,4, the first instance (id 2, pixels at columns 2 and 3) selects
{9, 3} and receives label 3, a member of the selection. -/
theorem C2_label_is_min_of_selected_classes_witness :
    0 < (instance_masks [[0, 0, 2, 2, 5]]).length ∧
    masked_values [[[7, 3, 9, 3, 4]]]
        ((instance_masks [[0, 0, 2, 2, 5]]).getD 0 []) ≠ [] ∧
    (load_target [[[7, 3, 9, 3, 4]]] [[0, 0, 2, 2, 5]]).labels.getD 0 0
        ∈ masked_values [[[7, 3, 9, 3, 4]]]
            ((instance_masks [[0, 0, 2, 2, 5]]).getD 0 []) :=
  ⟨by decide, by decide,
    (C2_label_is_min_of_selected_classes [[[7, 3, 9, 3, 4]]]
      [[0, 0, 2, 2, 5]] 0 (by decide) (by decide)).1⟩

/-- The bounding box of a mask with at least one true pixel bounds every
true pixel and each of its four entries is attained by a true pixel. -/
lemma bounding_box_spec {m : List (List Bool)} {r0 c0 : Nat}
    (h0 : maskVal m r0 c0 = true) :
    (bounding_box m).length = 4 ∧
    (∀ r c : Nat, maskVal m r c = true →
      (bounding_box m).getD 0 0 ≤ c ∧ (bounding_box m).getD 1 0 ≤ r ∧
      c ≤ (bounding_box m).getD 2 0 ∧ r ≤ (bounding_box m).getD 3 0) ∧
    (∃ r c, maskVal m r c = true ∧ c = (bounding_box m).getD 0 0) ∧
    (∃ r c, maskVal m r c = true ∧ r = (bounding_box m).getD 1 0) ∧
    (∃ r c, maskVal m r c = true ∧ c = (bounding_box m).getD 2 0) ∧
    (∃ r c, maskVal m r c = true ∧ r = (bounding_box m).getD 3 0) := by
  have hmem0 : (r0, c0) ∈ true_positions m := mem_true_positions.mpr h0
  have hne : true_positions m ≠ [] := fun hnil => by
    rw [hnil] at hmem0; cases hmem0
  have hcne : (true_positions m).map Prod.snd ≠ [] := by
    intro hnil
    exact hne (List.map_eq_nil_iff.mp hnil)
  have hrne : (true_positions m).map Prod.fst ≠ [] := by
    intro hnil
    exact hne (List.map_eq_nil_iff.mp hnil)
  obtain ⟨cmin, hcmin⟩ := min?_isSome_of_ne_nil hcne
  obtain ⟨rmin, hrmin⟩ := min?_isSome_of_ne_nil hrne
  obtain ⟨cmax, hcmax⟩ := max?_isSome_of_ne_nil hcne
  obtain ⟨rmax, hrmax⟩ := max?_isSome_of_ne_nil hrne
  have hbox : bounding_box m = [cmin, rmin, cmax, rmax] := by
    simp only [bounding_box, hcmin, hrmin, hcmax, hrmax, Option.getD_some]
  have hcminS := nat_min?_spec.mp hcmin
  have hrminS := nat_min?_spec.mp hrmin
  have hcmaxS := nat_max?_spec.mp hcmax
  have hrmaxS := nat_max?_spec.mp hrmax
  rw [hbox]
  refine ⟨rfl, ?_, ?_, ?_, ?_, ?_⟩
  · intro r c hrc
    have hmem : (r, c) ∈ true_positions m := mem_true_positions.mpr hrc
    refine ⟨?_, ?_, ?_, ?_⟩
    · exact hcminS.2 c (List.mem_map.mpr ⟨(r, c), hmem, rfl⟩)
    · exact hrminS.2 r (List.mem_map.mpr ⟨(r, c), hmem, rfl⟩)
    · exact hcmaxS.2 c (List.mem_map.mpr ⟨(r, c), hmem, rfl⟩)
    · exact hrmaxS.2 r (List.mem_map.mpr ⟨(r, c), hmem, rfl⟩)
  · obtain ⟨⟨r, c⟩, hmem, hc⟩ := List.mem_map.mp hcminS.1
    exact ⟨r, c, mem_true_positions.mp hmem, hc⟩
  · obtain ⟨⟨r, c⟩, hmem, hr⟩ := List.mem_map.mp hrminS.1
    exact ⟨r, c, mem_true_positions.mp hmem, hr⟩
  · obtain ⟨⟨r, c⟩, hmem, hc⟩ := List.mem_map.mp hcmaxS.1
    exact ⟨r, c, mem_true_positions.mp hmem, hc⟩
  · obtain ⟨⟨r, c⟩, hmem, hr⟩ := List.mem_map.mp hrmaxS.1
    exact ⟨r, c, mem_true_positions.mp hmem, hr⟩

/-- C3: for every instance mask with at least one true pixel, the
bounding box produced by `get` is `[xmin, ymin, xmax, ymax]` in pixel
coordinates: the least and greatest column and row over the true pixels —
each entry bounds every true pixel on its axis and is attained by one. -/
theorem C3_bounding_box_extents :
    ∀ (mask_tensor : List (List (List Int))) (inst : List (List Int))
      (k r0 c0 : Nat),
      k < (instance_masks inst).length →
      maskVal ((instance_masks inst).getD k []) r0 c0 = true →
      ((load_target mask_tensor inst).boxes.getD k []).length = 4 ∧
      (∀ r c : Nat, maskVal ((instance_masks inst).getD k []) r c = true →
        ((load_target mask_tensor inst).boxes.getD k []).getD 0 0 ≤ c ∧
        ((load_target mask_tensor inst).boxes.getD k []).getD 1 0 ≤ r ∧
        c ≤ ((load_target mask_tensor inst).boxes.getD k []).getD 2 0 ∧
        r ≤ ((load_target mask_tensor inst).boxes.getD k []).getD 3 0) ∧
      (∃ r c, maskVal ((instance_masks inst).getD k []) r c = true ∧
        c = ((load_target mask_tensor inst).boxes.getD k []).getD 0 0) ∧
      (∃ r c, maskVal ((instance_masks inst).getD k []) r c = true ∧
        r = ((load_target mask_tensor inst).boxes.getD k []).getD 1 0) ∧
      (∃ r c, maskVal ((instance_masks inst).getD k []) r c = true ∧
        c = ((load_target mask_tensor inst).boxes.getD k []).getD 2 0) ∧
      (∃ r c, maskVal ((instance_masks inst).getD k []) r c = true ∧
        r = ((load_target mask_tensor inst).boxes.getD k []).getD 3 0) := by
  intro mask_tensor inst k r0 c0 hk h0
  rw [load_target_boxes_getD hk]
  exact bounding_box_spec h0

/-- Witness for C3: on the concrete sample, the first instance (id 2,
true at columns 2 and 3 of row 0) has box `[2, 0, 3, 0]`. -/
theorem C3_bounding_box_extents_witness :
    0 < (instance_masks [[0, 0, 2, 2, 5]]).length ∧
    maskVal ((instance_masks [[0, 0, 2, 2, 5]]).getD 0 []) 0 2 = true ∧
    ∃ r c, maskVal ((instance_masks [[0, 0, 2, 2, 5]]).getD 0 []) r c = true ∧
      c = ((load_target [[[7, 3, 9, 3, 4]]] [[0, 0, 2, 2, 5]]).boxes.getD 0 []).getD 0 0 :=
  ⟨by decide, by decide,
    (C3_bounding_box_extents [[[7, 3, 9, 3, 4]]] [[0, 0, 2, 2, 5]] 0 0 2
      (by decide) (by decide)).2.2.1⟩

/-- A concrete archive image slice whose pixels are all zero. -/
def zeroTensor : Tensor4 :=
  { d0 := 1, d1 := 1, d2 := 1, d3 := 9, val := fun _ _ _ _ => 0 }

/-- C4: the sample returned by `get` (before any transform) maps `mask` to
an I×H×W array with values in {0, 1}, `bbox_xyxy` to an I×4 array and
`label` to an array of I entries, where I is the number of derived
instances — including I = 0, realized by an all-background instance
array. -/
theorem C4_sample_schema :
    (∀ (data : Tensor4) (band_idx : List Nat)
       (mask_tensor : List (List (List Int))) (inst : List (List Int)),
      (getitem data band_idx mask_tensor inst).mask.length
          = (instance_ids inst).length ∧
      (getitem data band_idx mask_tensor inst).bbox_xyxy.length
          = (instance_ids inst).length ∧
      (getitem data band_idx mask_tensor inst).label.length
          = (instance_ids inst).length ∧
      (∀ p ∈ (getitem data band_idx mask_tensor inst).mask,
        ∀ row ∈ p, ∀ v ∈ row, v = 0 ∨ v = 1) ∧
      (∀ b ∈ (getitem data band_idx mask_tensor inst).bbox_xyxy,
        b.length = 4)) ∧
    (getitem zeroTensor [] [[[0]]] [[0]]).mask.length = 0 ∧
    (getitem zeroTensor [] [[[0]]] [[0]]).bbox_xyxy.length = 0 ∧
    (getitem zeroTensor [] [[[0]]] [[0]]).label.length = 0 := by
  refine ⟨fun data band_idx mask_tensor inst =>
    ⟨?_, ?_, ?_, ?_, ?_⟩, by decide, by decide, by decide⟩
  · simp [getitem, load_target, instance_masks]
  · simp [getitem, load_target, instance_masks]
  · simp [getitem, load_target, instance_masks]
  · intro p hp row hrow v hv
    simp only [getitem, load_target] at hp
    obtain ⟨m, hm, rfl⟩ := List.mem_map.mp hp
    obtain ⟨r, hr, rfl⟩ := List.mem_map.mp hrow
    obtain ⟨b, hb, rfl⟩ := List.mem_map.mp hv
    cases b
    · exact Or.inl rfl
    · exact Or.inr rfl
  · intro b hb
    simp only [getitem, load_target] at hb
    obtain ⟨m, hm, rfl⟩ := List.mem_map.mp hb
    rfl

/-- Witness for C4: on the concrete sample, the first instance plane is
`[[0, 0, 1, 1, 0]]` and its value 1 is in {0, 1}. -/
theorem C4_sample_schema_witness :
    ([[0, 0, 1, 1, 0]]
        ∈ (getitem zeroTensor [] [[[7, 3, 9, 3, 4]]] [[0, 0, 2, 2, 5]]).mask) ∧
    ([0, 0, 1, 1, 0] ∈ [([0, 0, 1, 1, 0] : List Nat)]) ∧
    ((1 : Nat) ∈ ([0, 0, 1, 1, 0] : List Nat)) ∧
    ((1 : Nat) = 0 ∨ (1 : Nat) = 1) :=
  ⟨by decide, by decide, by decide,
    (C4_sample_schema.1 zeroTensor [] [[[7, 3, 9, 3, 4]]]
        [[0, 0, 2, 2, 5]]).2.2.2.1
      [[0, 0, 1, 1, 0]] (by decide) [0, 0, 1, 1, 0] (by decide) 1 (by decide)⟩

/-- C5 counterexample: passing a non-sequence as the band subset makes
construction fail with an `AssertionError` (the `assert` at zuericrop.py
line 243), which is not a `TypeError`-class error as the claim states. -/
theorem C5_counterexample_not_typeerror :
    errClass (init true BandsArg.notSeq (fun _ => true) false true)
        = "AssertionError" ∧
    "AssertionError" ≠ "TypeError" := by
  exact ⟨rfl, by decide⟩

/-- C5 (amended): for every argument that is not a sequence passed as the
band subset, construction fails with an `AssertionError`-class error (the
`assert isinstance(bands, Sequence)` statement), whatever the filesystem
and download configuration. -/
theorem C5_nonsequence_raises_assertionerror :
    ∀ (fileExists : String → Bool) (download downloadOk : Bool),
      init true BandsArg.notSeq fileExists download downloadOk
        = .error (.assertionError "\x27bands\x27 must be a sequence") := by
  intro fileExists download downloadOk
  rfl

/-- C6: for every band subset containing at least one name outside the
fixed 9 band names, construction fails with a `ValueError` whose message
names the offending band (the first invalid one encountered). -/
theorem C6_invalid_band_raises_valueerror :
    ∀ (bands : List String) (fileExists : String → Bool)
      (download downloadOk : Bool),
      (∃ b ∈ bands, b ∉ band_names) →
      ∃ b, b ∈ bands ∧ b ∉ band_names ∧
        invalid_band_msg b = "\x27" ++ b ++ "\x27 is an invalid band name." ∧
        init true (.seq bands) fileExists download downloadOk
          = .error (.valueError (invalid_band_msg b)) := by
  intro bands fileExists download downloadOk hex
  obtain ⟨b0, hb0, hb0n⟩ := hex
  cases hfind : bands.find? (fun b => !(band_names.contains b)) with
  | none =>
    exfalso
    have hnone := List.find?_eq_none.mp hfind b0 hb0
    have hc : band_names.contains b0 = false := by
      cases hcb : band_names.contains b0
      · rfl
      · exact absurd (List.elem_iff.mp hcb) hb0n
    exact hnone (by rw [hc]; rfl)
  | some b =>
    have hbmem : b ∈ bands := List.mem_of_find?_eq_some hfind
    have hcf : band_names.contains b = false := by
      have hp := List.find?_some hfind
      cases hcb : band_names.contains b
      · rfl
      · rw [hcb] at hp
        exact Bool.noConfusion hp
    have hbn : b ∉ band_names := by
      intro hmem
      have h1 : band_names.contains b = true := List.elem_iff.mpr hmem
      rw [h1] at hcf
      exact Bool.noConfusion hcf
    refine ⟨b, hbmem, hbn, rfl, ?_⟩
    have hval : validate_bands (.seq bands)
        = .error (.valueError (invalid_band_msg b)) := by
      show (match bands.find? (fun b => !(band_names.contains b)) with
        | some b => Except.error (PyError.valueError (invalid_band_msg b))
        | none => Except.ok ()) = _
      rw [hfind]
    simp [init, lazy_import_h5py, hval]

/-- Witness for C6 at the subset `["B01"]`: `B01` is not one of the nine
valid band names and construction fails naming it. -/
theorem C6_invalid_band_raises_valueerror_witness :
    (∃ b ∈ ["B01"], b ∉ band_names) ∧
    ∃ b, b ∈ ["B01"] ∧ b ∉ band_names ∧
      invalid_band_msg b = "\x27" ++ b ++ "\x27 is an invalid band name." ∧
      init true (.seq ["B01"]) (fun _ => true) false true
        = .error (.valueError (invalid_band_msg b)) :=
  ⟨⟨"B01", by decide, by decide⟩,
    C6_invalid_band_raises_valueerror ["B01"] (fun _ => true) false true
      ⟨"B01", by decide, by decide⟩⟩

/-- Validation succeeds on any subset whose names are all drawn from the
fixed nine (membership is the only per-entry check). -/
lemma validate_bands_ok_of_valid {bands : List String}
    (hvalid : ∀ b ∈ bands, b ∈ band_names) :
    validate_bands (.seq bands) = .ok () := by
  show (match bands.find? (fun b => !(band_names.contains b)) with
    | some b => Except.error (PyError.valueError (invalid_band_msg b))
    | none => Except.ok ()) = _
  have hnone : bands.find? (fun b => !(band_names.contains b)) = none := by
    rw [List.find?_eq_none]
    intro x hx hpx
    have hc : band_names.contains x = true := List.elem_iff.mpr (hvalid x hx)
    rw [hc] at hpx
    exact Bool.noConfusion hpx
  rw [hnone]

/-- The i-th precomputed band index is the position of the i-th selected
band in the fixed band order. -/
lemma band_indices_getD {bands : List String} {i : Nat}
    (hi : i < bands.length) :
    (band_indices bands).getD i 0
      = List.indexOf (bands.getD i "") band_names := by
  show ((bands.map (fun b => band_names.indexOf b)).getD i 0) = _
  have hmi : i < (bands.map (fun b => band_names.indexOf b)).length := by
    rw [List.length_map]; exact hi
  rw [List.getD_eq_getElem _ _ hmi, List.getElem_map,
    List.getD_eq_getElem _ _ hi]

/-- C7: `plot` raises `RGBBandsMissingError` exactly when the selected
band subset is missing at least one of the three RGB band names; when all
three are present it returns a figure with 2 panels without a
`prediction` key and 3 panels with one. -/
theorem C7_render_rgb_check :
    ∀ (bands : List String) (hasPrediction : Bool),
      ((plot bands hasPrediction = .error .rgbBandsMissingError) ↔
        ∃ b ∈ rgb_bands, ¬ b ∈ bands) ∧
      ((∀ b ∈ rgb_bands, b ∈ bands) →
        ∃ idx, plot bands hasPrediction
          = .ok (idx, if hasPrediction then 3 else 2)) := by
  intro bands hasPrediction
  cases hasPrediction <;>
    by_cases h4 : "B04" ∈ bands <;>
    by_cases h3 : "B03" ∈ bands <;>
    by_cases h2 : "B02" ∈ bands <;>
    simp [plot, rgb_indices_of, rgb_bands, List.elem_iff, h4, h3, h2]

/-- Witness for C7: with the full band set selected, `plot` succeeds and
produces a 2-panel figure when the sample has no prediction. -/
theorem C7_render_rgb_check_witness :
    (∀ b ∈ rgb_bands, b ∈ band_names) ∧
    ∃ idx, plot band_names false = .ok (idx, if False then 3 else 2) := by
  refine ⟨by decide, ?_⟩
  have h := (C7_render_rgb_check band_names false).2 (by decide)
  simpa using h

/-- C8: with any of the two required files absent and download disabled,
construction (with an otherwise valid configuration) fails with
`DatasetNotFoundError`; with both files present, construction never fails
with that error. -/
theorem C8_missing_files_dataset_not_found :
    ∀ (bands : List String) (fileExists : String → Bool) (downloadOk : Bool),
      (∀ b ∈ bands, b ∈ band_names) →
      (filenames.all fileExists = false →
        init true (.seq bands) fileExists false downloadOk
          = .error .datasetNotFoundError) ∧
      (filenames.all fileExists = true →
        ∀ download : Bool,
          init true (.seq bands) fileExists download downloadOk
            ≠ .error .datasetNotFoundError) := by
  intro bands fileExists downloadOk hvalid
  have hval := validate_bands_ok_of_valid hvalid
  constructor
  · intro hall
    simp [init, lazy_import_h5py, hval, verify, hall]
  · intro hall download
    simp [init, lazy_import_h5py, hval, verify, hall]

/-- Witness for C8: all nine bands selected, no file present, download
disabled: construction fails with `DatasetNotFoundError`. -/
theorem C8_missing_files_dataset_not_found_witness :
    (∀ b ∈ band_names, b ∈ band_names) ∧
    (filenames.all (fun _ => false) = false) ∧
    init true (.seq band_names) (fun _ => false) false true
      = .error .datasetNotFoundError :=
  ⟨fun _ h => h, by decide,
    (C8_missing_files_dataset_not_found band_names (fun _ => false) true
      (fun _ h => h)).1 (by decide)⟩

/-- C9: for every valid band subset, the precomputed band-index list has
the same length as the subset and its i-th entry is the position of the
i-th selected band in the fixed on-disk order (so the order of the subset is
preserved), and the image returned by `get` has one channel per selected
band. -/
theorem C9_band_indices_and_channels :
    ∀ bands : List String,
      (∀ b ∈ bands, b ∈ band_names) →
      (band_indices bands).length = bands.length ∧
      (∀ i : Nat, i < bands.length →
        band_names.getD ((band_indices bands).getD i 0) ""
          = bands.getD i "") ∧
      (∀ (data : Tensor4) (mask_tensor : List (List (List Int)))
         (inst : List (List Int)),
        (getitem data (band_indices bands) mask_tensor inst).image.d1
          = bands.length) := by
  intro bands hvalid
  refine ⟨List.length_map _ _, ?_, ?_⟩
  · intro i hi
    have hbmem : bands.getD i "" ∈ band_names := by
      rw [List.getD_eq_getElem _ _ hi]
      exact hvalid _ (List.getElem_mem hi)
    have hlt : List.indexOf (bands.getD i "") band_names < band_names.length :=
      List.indexOf_lt_length.mpr hbmem
    rw [band_indices_getD hi, List.getD_eq_getElem _ _ hlt,
      List.getElem_indexOf hlt]
  · intro data mask_tensor inst
    show (band_indices bands).length = bands.length
    exact List.length_map _ _

/-- Witness for C9 at the RGB subset: the index list has length 3. -/
theorem C9_band_indices_and_channels_witness :
    (∀ b ∈ rgb_bands, b ∈ band_names) ∧
    (band_indices rgb_bands).length = rgb_bands.length :=
  ⟨by decide, (C9_band_indices_and_channels rgb_bands (by decide)).1⟩

/-- A concrete archive image slice whose pixel value records the on-disk
channel index, to observe channel selection. -/
def chanTensor : Tensor4 :=
  { d0 := 1, d1 := 1, d2 := 1, d3 := 9, val := fun _ _ _ c => Int.ofNat c }

/-- C10: construction accepts an empty band subset and a subset with
duplicate names (validation checks only membership of each entry): the
empty subset yields a zero-channel image, and a duplicated band occupies
one output channel per occurrence, each carrying the data of that band. -/
theorem C10_empty_and_duplicate_bands :
    init true (.seq []) (fun _ => true) false true = .ok [] ∧
    init true (.seq ["B02", "B02"]) (fun _ => true) false true
      = .ok [2, 2] ∧
    (∀ bands : List String, (∀ b ∈ bands, b ∈ band_names) →
      validate_bands (.seq bands) = .ok ()) ∧
    (∀ (data : Tensor4) (mask_tensor : List (List (List Int)))
       (inst : List (List Int)),
      (getitem data (band_indices []) mask_tensor inst).image.d1 = 0) ∧
    (∀ (data : Tensor4) (bands : List String) (i j : Nat),
      i < bands.length → j < bands.length →
      bands.getD i "" = bands.getD j "" →
      ∀ t h w : Nat,
        (load_image data (band_indices bands)).val t i h w
          = (load_image data (band_indices bands)).val t j h w) := by
  refine ⟨rfl, rfl, fun bands hvalid => validate_bands_ok_of_valid hvalid,
    fun data mask_tensor inst => rfl, ?_⟩
  intro data bands i j hi hj hij t h w
  show data.val t h w ((band_indices bands).getD i 0)
    = data.val t h w ((band_indices bands).getD j 0)
  rw [band_indices_getD hi, band_indices_getD hj, hij]

/-- Witness for C10: selecting `["B02", "B02"]` puts the `B02` channel
(on-disk index 2) at both output positions. -/
theorem C10_empty_and_duplicate_bands_witness :
    0 < (["B02", "B02"] : List String).length ∧
    1 < (["B02", "B02"] : List String).length ∧
    (["B02", "B02"] : List String).getD 0 ""
      = (["B02", "B02"] : List String).getD 1 "" ∧
    (load_image chanTensor (band_indices ["B02", "B02"])).val 0 0 0 0
      = (load_image chanTensor (band_indices ["B02", "B02"])).val 0 1 0 0 :=
  ⟨by decide, by decide, by decide,
    C10_empty_and_duplicate_bands.2.2.2.2 chanTensor ["B02", "B02"] 0 1
      (by decide) (by decide) (by decide) 0 0 0⟩

end ZueriCrop

